import Mathlib

/-!
Shallow embedding of the application logic of `AVRPowerSupply.cpp`
(cmarrin/AVRPowerSupply): the sampling/current-limiting engine, the
current-limit commit/reject operations, the idle-event dispatcher and the
error reporter.  Machine integers are modelled as `Int`/`Nat` with explicit
wrapping (`% 256`, `% 65536`, int16 store truncation) where the C types
(`uint8_t`, `uint16_t`, `int16_t`) can overflow.  External peripherals
(INA219 current sensor, ADC, LCD) appear as inputs and abstract output
actions, matching the narrow collaborator contract of the firmware.
-/

/-- Truncation of an `int32` value to `int16` on assignment
(`_shuntMilliAmps[i] = v` where `v` is `int32_t`). -/
def toInt16 (x : Int) : Int := (x + 32768) % 65536 - 32768

/-- Source: `const uint8_t curLimitValues[] PROGMEM = { 1, 5, 10, 20, 40, 60, 80, 100 };` -/
def curLimitValues : List Nat := [1, 5, 10, 20, 40, 60, 80, 100]

/-- Source: `const uint8_t numCurLimitValues = sizeof(curLimitValues);` -/
def numCurLimitValues : Nat := curLimitValues.length

/-- Source: `const uint8_t ADCAverageCount = 16;` -/
def ADCAverageCount : Nat := 16

/-- The ADC averaging state of `MyApp`: four `uint16_t` accumulators, four
`uint16_t` averaged voltages, the `uint8_t` round-robin channel and the
`uint8_t` sample counter. -/
structure ADCState where
  adcAccumulator : List Nat
  adcVoltage : List Nat
  adcCurrentChannel : Nat
  adcCurrentSamples : Nat
  deriving Repr, DecidableEq

/-- Source: `MyApp::updateADC()`: fold one raw 10-bit conversion result into the
accumulator of the current channel, advance the round-robin channel, and
after `ADCAverageCount` full rounds flush every accumulator into the
averaged millivolt table `v = ((acc + 8) / 16) * 5000 / 1024`. -/
def updateADC (s : ADCState) (sample : Nat) : ADCState :=
  let acc := s.adcAccumulator.set s.adcCurrentChannel
    ((s.adcAccumulator.getD s.adcCurrentChannel 0 + sample) % 65536)
  let ch := (s.adcCurrentChannel + 1) % 256
  if 4 ≤ ch then
    let samples := (s.adcCurrentSamples + 1) % 256
    if ADCAverageCount ≤ samples then
      { adcAccumulator := List.replicate 4 0,
        adcVoltage := acc.map fun a => (a + ADCAverageCount / 2) / ADCAverageCount * 5000 / 1024 % 65536,
        adcCurrentChannel := 0,
        adcCurrentSamples := 0 }
    else
      { s with adcAccumulator := acc, adcCurrentChannel := 0, adcCurrentSamples := samples }
  else
    { s with adcAccumulator := acc, adcCurrentChannel := ch }

/-- Iterate `updateADC` over a list of raw samples, one per
`ConversionComplete` event. -/
def runADC (s : ADCState) (xs : List Nat) : ADCState :=
  xs.foldl updateADC s

/-- The application state of `MyApp` that the sampling engine, display
dirty-flag logic and current-limit menu callbacks touch.  The LCD itself is
an external text sink; only the control state is kept here. -/
structure AppState where
  busMilliVolts0 : Int
  busMilliVolts1 : Int
  shuntMilliAmps0 : Int
  shuntMilliAmps1 : Int
  overCurrentCount0 : Nat
  overCurrentCount1 : Nat
  shutdownA : Bool
  shutdownB : Bool
  statusLED : Bool
  needsDisplay : Bool
  displayEnabled : Bool
  captureSensorValues : Bool
  captureADCValue : Bool
  adc : ADCState
  currentLimitIndex0 : Nat
  currentLimitIndex1 : Nat
  currentLimitAdjustIndex0 : Nat
  currentLimitAdjustIndex1 : Nat
  currentLimitAdjustSupply : Nat
  deriving Repr, DecidableEq

namespace AppState

/-- Source: `_busMilliVolts[i]` -/
def busMilliVolts (s : AppState) (i : Nat) : Int :=
  if i = 0 then s.busMilliVolts0 else s.busMilliVolts1

/-- Source: `_shuntMilliAmps[i]` -/
def shuntMilliAmps (s : AppState) (i : Nat) : Int :=
  if i = 0 then s.shuntMilliAmps0 else s.shuntMilliAmps1

/-- Source: `_overCurrentCount[i]` -/
def overCurrentCount (s : AppState) (i : Nat) : Nat :=
  if i = 0 then s.overCurrentCount0 else s.overCurrentCount1

/-- Source: `_currentLimitIndex[i]` -/
def currentLimitIndex (s : AppState) (i : Nat) : Nat :=
  if i = 0 then s.currentLimitIndex0 else s.currentLimitIndex1

/-- Source: `_currentLimitAdjustIndex[i]` -/
def currentLimitAdjustIndex (s : AppState) (i : Nat) : Nat :=
  if i = 0 then s.currentLimitAdjustIndex0 else s.currentLimitAdjustIndex1

/-- the shutdown line of supply `i` (`_shutdownA` / `_shutdownB`) -/
def shutdown (s : AppState) (i : Nat) : Bool :=
  if i = 0 then s.shutdownA else s.shutdownB

end AppState

/-- Source: `MyApp::curLimitMa(supply)`: the committed current limit of a supply in
milliamps, `curLimitValues[_currentLimitIndex[supply]] * 10`. -/
def curLimitMa (s : AppState) (supply : Nat) : Nat :=
  curLimitValues.getD (s.currentLimitIndex supply) 0 * 10

/-- Source: `MyApp::curLimitAdjustMa(supply)`:
`curLimitValues[_currentLimitAdjustIndex[supply]] * 10`. -/
def curLimitAdjustMa (s : AppState) (supply : Nat) : Nat :=
  curLimitValues.getD (s.currentLimitAdjustIndex supply) 0 * 10

/-- Source: `MyApp::setCurrentLimit(supply)`: assert the shutdown line of the given
supply and the status LED. -/
def setCurrentLimit (s : AppState) (supply : Nat) : AppState :=
  if supply = 0 then
    { s with shutdownA := true, statusLED := true }
  else
    { s with shutdownB := true, statusLED := true }

/-- Source: `MyApp::resetCurrentLimit()`: de-assert both shutdown lines and the
status LED. -/
def resetCurrentLimit (s : AppState) : AppState :=
  { s with shutdownA := false, shutdownB := false, statusLED := false }

/-- The pair of readings the INA219 of one supply delivers on one poll:
`busMilliVolts()` (an `int16_t`) and `shuntMilliVolts()` (read into an
`int32_t`). -/
structure SensorReading where
  bus : Int
  shunt : Int
  deriving Repr, DecidableEq

/-- One poll delivers one reading per supply. -/
structure Readings where
  supply0 : SensorReading
  supply1 : SensorReading
  deriving Repr, DecidableEq

def Readings.get (r : Readings) (i : Nat) : SensorReading :=
  if i = 0 then r.supply0 else r.supply1

/-- The shunt-millivolt to shunt-milliamp transform of
`MyApp::updateCurrentSensor`: clamp negatives to zero, then
`v = (v * 100 + 165) / 330` in `int32` arithmetic. -/
def shuntToMa (shunt : Int) : Int := (max shunt 0 * 100 + 165) / 330

/-- The body of the `for` loop of `MyApp::updateCurrentSensor()` for one
supply `i`: store a changed bus reading (dirtying the display), convert the
shunt reading to milliamps, store it if changed (dirtying the display, with
`int16` truncation on store), then run the overcurrent check:
`if (_shuntMilliAmps[i] > (int16_t) curLimitMa(i) * 10) { if (_overCurrentCount[i]++ > 3) setCurrentLimit(i); } else _overCurrentCount[i] = 0;`. -/
def updateCurrentSensorOne (s : AppState) (i : Nat) (r : SensorReading) : AppState :=
  let s1 :=
    if r.bus ≠ s.busMilliVolts i then
      if i = 0 then { s with busMilliVolts0 := r.bus, needsDisplay := true }
      else { s with busMilliVolts1 := r.bus, needsDisplay := true }
    else s
  let v := shuntToMa r.shunt
  let s2 :=
    if v ≠ s1.shuntMilliAmps i then
      if i = 0 then { s1 with shuntMilliAmps0 := toInt16 v, needsDisplay := true }
      else { s1 with shuntMilliAmps1 := toInt16 v, needsDisplay := true }
    else s1
  if s2.shuntMilliAmps i > (curLimitMa s2 i : Int) * 10 then
    let old := s2.overCurrentCount i
    let s3 :=
      if i = 0 then { s2 with overCurrentCount0 := (old + 1) % 256 }
      else { s2 with overCurrentCount1 := (old + 1) % 256 }
    if old > 3 then setCurrentLimit s3 i else s3
  else
    if i = 0 then { s2 with overCurrentCount0 := 0 }
    else { s2 with overCurrentCount1 := 0 }

/-- Source: `MyApp::updateCurrentSensor()`: poll supply 0 then supply 1. -/
def updateCurrentSensor (s : AppState) (r : Readings) : AppState :=
  updateCurrentSensorOne (updateCurrentSensorOne s 0 r.supply0) 1 r.supply1

/-- Iterate current-sensor polls over a list of readings. -/
def runPolls (s : AppState) (rs : List Readings) : AppState :=
  rs.foldl updateCurrentSensor s

/-- Source: `MyApp::CurrentLimitArrow` -/
inductive CurrentLimitArrow
  | None
  | Supply
  | Current
  deriving Repr, DecidableEq

/-- Source: `MyApp::showCurrentLimit(supply, arrow)`: reset the current-limit
shutdown, suppress the live-value display, and render the limit line on the
LCD (the rendering itself goes to the external text sink; the `arrow`
selects which cursor glyph is drawn). -/
def showCurrentLimit (s : AppState) (supply : Nat) (arrow : CurrentLimitArrow) : AppState :=
  let s1 := resetCurrentLimit s
  { s1 with displayEnabled := false }

/-- menu callback `MyApp::display`: `app->_displayEnabled = true;` -/
def display (s : AppState) : AppState :=
  { s with displayEnabled := true }

/-- menu callback `MyApp::curLimit0`:
`app->showCurrentLimit(0, Supply); app->_currentLimitAdjustSupply = 0;` -/
def curLimit0 (s : AppState) : AppState :=
  { showCurrentLimit s 0 CurrentLimitArrow.Supply with currentLimitAdjustSupply := 0 }

/-- menu callback `MyApp::curLimit1`:
`app->showCurrentLimit(1, Supply); app->_currentLimitAdjustSupply = 1;` -/
def curLimit1 (s : AppState) : AppState :=
  { showCurrentLimit s 1 CurrentLimitArrow.Supply with currentLimitAdjustSupply := 1 }

/-- menu callback `MyApp::adjustCurLimit`:
`app->showCurrentLimit(app->_currentLimitAdjustSupply, Current);` -/
def adjustCurLimit (s : AppState) : AppState :=
  showCurrentLimit s s.currentLimitAdjustSupply CurrentLimitArrow.Current

/-- menu callback `MyApp::showCurLimit`:
`app->showCurrentLimit(app->_currentLimitAdjustSupply, None);` -/
def showCurLimit (s : AppState) : AppState :=
  showCurrentLimit s s.currentLimitAdjustSupply CurrentLimitArrow.None

/-- The index arithmetic of `MyApp::incCurLimit`:
`if (++idx >= numCurLimitValues) idx = 0;` on a `uint8_t`. -/
def incIdx (p : Nat) : Nat :=
  let q := (p + 1) % 256
  if numCurLimitValues ≤ q then 0 else q

/-- The index arithmetic of `MyApp::decCurLimit`:
`if (idx-- == 0) idx = numCurLimitValues - 1;` on a `uint8_t`: the old
value is tested, so 0 wraps to the last table entry and any other value is
decremented. -/
def decIdx (p : Nat) : Nat :=
  if p = 0 then numCurLimitValues - 1 else p - 1

/-- menu callback `MyApp::incCurLimit`: increment the pending limit index of
the supply being adjusted (`uint8_t` increment), wrapping to 0 when it
reaches `numCurLimitValues`. -/
def incCurLimit (s : AppState) : AppState :=
  let j := s.currentLimitAdjustSupply
  if j = 0 then { s with currentLimitAdjustIndex0 := incIdx (s.currentLimitAdjustIndex j) }
  else { s with currentLimitAdjustIndex1 := incIdx (s.currentLimitAdjustIndex j) }

/-- menu callback `MyApp::decCurLimit`: decrement the pending limit index of
the supply being adjusted, wrapping from 0 to `numCurLimitValues - 1`. -/
def decCurLimit (s : AppState) : AppState :=
  let j := s.currentLimitAdjustSupply
  if j = 0 then { s with currentLimitAdjustIndex0 := decIdx (s.currentLimitAdjustIndex j) }
  else { s with currentLimitAdjustIndex1 := decIdx (s.currentLimitAdjustIndex j) }

/-- menu callback `MyApp::acceptCurLimit`: copy the pending indexes of both
supplies into the committed indexes. -/
def acceptCurLimit (s : AppState) : AppState :=
  { s with currentLimitIndex0 := s.currentLimitAdjustIndex0,
           currentLimitIndex1 := s.currentLimitAdjustIndex1 }

/-- menu callback `MyApp::rejectCurLimit`: copy the committed indexes of
both supplies back into the pending indexes. -/
def rejectCurLimit (s : AppState) : AppState :=
  { s with currentLimitAdjustIndex0 := s.currentLimitIndex0,
           currentLimitAdjustIndex1 := s.currentLimitIndex1 }

/-- Source: `MyApp::updateDisplay()`: do nothing unless the display is enabled and
dirty; otherwise clear the dirty flag and redraw both lines on the LCD.
The returned `Bool` records whether an LCD redraw was issued. -/
def updateDisplay (s : AppState) : AppState × Bool :=
  if !s.displayEnabled || !s.needsDisplay then (s, false)
  else ({ s with needsDisplay := false }, true)

/-- The externally visible calls the dispatcher makes during one `EV_IDLE`
pass. -/
inductive IdleAction
  | menuForward
  | sensorPoll
  | adcFold
  | startConversion
  | redraw
  deriving Repr, DecidableEq

/-- Modelled from the spec: `Menu::handleEvent` lives in the library's
`Menu.h`, which is not part of this repository snapshot.  Per the spec the
menu engine only drives UI navigation from forwarded events and never
touches the sampling flags or sampling state, so forwarding an event to it
is modelled as the forwarding action with the sampling state unchanged. -/
def menuHandleEvent (s : AppState) : AppState × List IdleAction :=
  (s, [IdleAction.menuForward])

/-- The sensor-capture step of the `EV_IDLE` branch of
`MyApp::handleEvent`: when `_captureSensorValues` is set, clear it and run
`updateCurrentSensor()`. -/
def pollPhase (s : AppState) (r : Readings) : AppState × List IdleAction :=
  if s.captureSensorValues then
    (updateCurrentSensor { s with captureSensorValues := false } r, [IdleAction.sensorPoll])
  else (s, [])

/-- The ADC step of the `EV_IDLE` branch of `MyApp::handleEvent`: when
`_captureADCValue` is set, clear it, fold the sample with `updateADC()` and
start the next conversion. -/
def adcPhase (s : AppState) (sample : Nat) : AppState × List IdleAction :=
  if s.captureADCValue then
    ({ s with captureADCValue := false, adc := updateADC s.adc sample },
      [IdleAction.adcFold, IdleAction.startConversion])
  else (s, [])

/-- The state handed to `updateDisplay()` at the end of an idle pass. -/
def preDisplay (s : AppState) (r : Readings) (sample : Nat) : AppState :=
  (adcPhase (pollPhase (menuHandleEvent s).1 r).1 sample).1

/-- Source: `MyApp::handleEvent(EV_IDLE, ...)`: `Menu::handleEvent` runs first on
every event, then the sensor-capture step, then the ADC step, then
`updateDisplay()`. -/
def handleIdle (s : AppState) (r : Readings) (sample : Nat) : AppState × List IdleAction :=
  let m := menuHandleEvent s
  let p := pollPhase m.1 r
  let a := adcPhase p.1 sample
  let d := updateDisplay a.1
  (d.1, m.2 ++ p.2 ++ a.2 ++ if d.2 then [IdleAction.redraw] else [])

/-- The action trace of one idle pass. -/
def idleTrace (s : AppState) (r : Readings) (sample : Nat) : List IdleAction :=
  (handleIdle s r sample).2

/-- Source: `toHex`'s digit conversion: `(c > 9) ? (c + 'a' - 10) : (c + '0')`. -/
def hexChar (c : Nat) : Char :=
  if c > 9 then Char.ofNat (c + 97 - 10) else Char.ofNat (c + 48)

/-- The digit-emitting loop of `toHex`: while `u` is nonzero, prepend the
two hex digits of its low byte and shift right by 8 bits. -/
def toHexDigits (u : Nat) : List Char :=
  if h : u = 0 then []
  else toHexDigits (u / 256) ++ [hexChar (u / 16 % 16), hexChar (u % 16)]
  decreasing_by exact Nat.div_lt_self (Nat.pos_of_ne_zero h) (by norm_num)

/-- Source: `toHex(buf, u)`: "0x" followed by the hex digits of `u` in byte pairs,
or "0x00" when `u` is zero. -/
def toHex (u : Nat) : String :=
  ⟨'0' :: 'x' :: (if u = 0 then ['0', '0'] else toHexDigits u)⟩

/-- Source: `ErrorConditionType` of the m8r library, as used by
`MyErrorReporter::reportError`. -/
inductive ErrorConditionType
  | Note
  | Warning
  | Fatal
  deriving Repr, DecidableEq

/-- The observable outcome of `MyErrorReporter::reportError`: the text
written to the LCD, whether the call halts forever (`while (1) ;`), and the
delay taken before returning when it does return. -/
structure ErrorReport where
  text : String
  halts : Bool
  delayMs : Nat
  deriving Repr, DecidableEq

/-- Source: `MyErrorReporter::reportError(c, code, type)`: clear the LCD, write a
severity tag and the hex error code; on `Fatal` loop forever, otherwise
delay 1000 ms and return. -/
def reportError (c : Char) (code : Nat) (t : ErrorConditionType) : ErrorReport :=
  let tag : String :=
    match t with
    | ErrorConditionType.Note => "Note:"
    | ErrorConditionType.Warning => "Warn:"
    | ErrorConditionType.Fatal => "Fatl:"
  if t = ErrorConditionType.Fatal then
    { text := tag ++ toHex code, halts := true, delayMs := 0 }
  else
    { text := tag ++ toHex code, halts := false, delayMs := 1000 }

/-- The value the shunt-milliamp update leaves in `_shuntMilliAmps[i]` for a
raw reading: the milliamp transform, truncated to `int16` by the store. -/
def storedMa (shunt : Int) : Int := toInt16 (shuntToMa shunt)

/-- The value range of an `int16_t`. -/
def int16Range (x : Int) : Prop := -32768 ≤ x ∧ x ≤ 32767

instance (x : Int) : Decidable (int16Range x) :=
  inferInstanceAs (Decidable (_ ∧ _))

/-- The averaged-voltage formula of `MyApp::updateADC` for a window sum `S`:
`((S + 8) / 16) * 5000 / 1024` with truncating integer division. -/
def avgFormula (S : Nat) : Nat := (S + 8) / 16 * 5000 / 1024

/-- One round-robin round of ADC conversions: one raw sample for each of
the four channels, in channel order. -/
structure ADCRound where
  x0 : Nat
  x1 : Nat
  x2 : Nat
  x3 : Nat
  deriving Repr, DecidableEq

/-- The sample sequence of a list of round-robin rounds, one sample per
`ConversionComplete` event, channels `0,1,2,3,0,1,2,3,...`. -/
def interleave (rs : List ADCRound) : List Nat :=
  rs.foldr (fun q acc => q.x0 :: q.x1 :: q.x2 :: q.x3 :: acc) []

/-- The sum of the channel-0 samples of a list of rounds. -/
def sumChan0 (rs : List ADCRound) : Nat := (rs.map ADCRound.x0).sum

/-- The sum of the channel-1 samples of a list of rounds. -/
def sumChan1 (rs : List ADCRound) : Nat := (rs.map ADCRound.x1).sum

/-- The sum of the channel-2 samples of a list of rounds. -/
def sumChan2 (rs : List ADCRound) : Nat := (rs.map ADCRound.x2).sum

/-- The sum of the channel-3 samples of a list of rounds. -/
def sumChan3 (rs : List ADCRound) : Nat := (rs.map ADCRound.x3).sum

/-- The idle-pass ordering asserted by the specification: the forwarding to
the menu engine comes after the ADC fold (spec steps: sensor poll, ADC
fold, button forwarding, redraw). -/
def claimedIdleOrder (t : List IdleAction) : Prop :=
  ∀ i < t.length, ∀ j < t.length,
    t.getD i IdleAction.redraw = IdleAction.adcFold →
    t.getD j IdleAction.redraw = IdleAction.menuForward →
    i < j

/-- A fresh ADC state: the zero-initialized accumulators of the global
application object, channel 0, sample count 0 — also the state right after
any flush. -/
def freshADC : ADCState :=
  { adcAccumulator := [0, 0, 0, 0], adcVoltage := [0, 0, 0, 0],
    adcCurrentChannel := 0, adcCurrentSamples := 0 }

/-- A concrete steady application state: both limits committed at the top
table entry (1000 mA), all readings stored as zero, no shutdown latched. -/
def baseState : AppState :=
  { busMilliVolts0 := 0, busMilliVolts1 := 0,
    shuntMilliAmps0 := 0, shuntMilliAmps1 := 0,
    overCurrentCount0 := 0, overCurrentCount1 := 0,
    shutdownA := false, shutdownB := false, statusLED := false,
    needsDisplay := false, displayEnabled := true,
    captureSensorValues := true, captureADCValue := true,
    adc := freshADC,
    currentLimitIndex0 := 7, currentLimitIndex1 := 7,
    currentLimitAdjustIndex0 := 7, currentLimitAdjustIndex1 := 7,
    currentLimitAdjustSupply := 0 }

/-- A poll whose supply-0 shunt reading converts to 10010 mA — above the
10000 threshold of a 1000 mA limit — and whose supply-1 reading is in
limit. -/
def overReading : Readings :=
  { supply0 := { bus := 5000, shunt := 33033 },
    supply1 := { bus := 3300, shunt := 0 } }

/-- A poll that reproduces exactly the values stored in `baseState`. -/
def inReading : Readings :=
  { supply0 := { bus := 0, shunt := 0 },
    supply1 := { bus := 0, shunt := 0 } }

/-- Source: `runPolls` with a redraw attempt after every poll, counting the
redraws actually issued: each step is one periodic tick followed by its
idle pass's `updateDisplay()`. -/
def runPollsDisplay (s : AppState) (rs : List Readings) : AppState × Nat :=
  rs.foldl
    (fun acc r =>
      let d := updateDisplay (updateCurrentSensor acc.1 r)
      (d.1, acc.2 + if d.2 then 1 else 0))
    (s, 0)

/-- A concrete latched state: supply 0 shut down with its counter at 5. -/
def latchedState : AppState :=
  { baseState with overCurrentCount0 := 5, shutdownA := true, statusLED := true }

lemma numCurLimitValues_eq : numCurLimitValues = 8 := rfl

lemma decIdx_incIdx (p : Nat) (hp : p ≤ 7) : decIdx (incIdx p) = p := by
  simp only [incIdx, decIdx, numCurLimitValues_eq]
  split_ifs <;> omega

lemma incIdx_decIdx (p : Nat) (hp : p ≤ 7) : incIdx (decIdx p) = p := by
  simp only [incIdx, decIdx, numCurLimitValues_eq]
  split_ifs <;> omega

lemma incIdx_le (p : Nat) : incIdx p ≤ 7 := by
  simp only [incIdx, numCurLimitValues_eq]
  split_ifs <;> omega

lemma decIdx_le (p : Nat) (hp : p ≤ 7) : decIdx p ≤ 7 := by
  simp only [decIdx, numCurLimitValues_eq]
  split_ifs <;> omega

lemma decCurLimit_incCurLimit (s : AppState)
    (h0 : s.currentLimitAdjustIndex0 ≤ 7) (h1 : s.currentLimitAdjustIndex1 ≤ 7) :
    decCurLimit (incCurLimit s) = s := by
  obtain ⟨b0, b1, m0, m1, c0, c1, sa, sb, led, nd, de, csv, cav, adc, li0, li1, ai0, ai1, js⟩ := s
  by_cases hj : js = 0 <;>
    simp_all [incCurLimit, decCurLimit, AppState.currentLimitAdjustIndex, decIdx_incIdx]

lemma incCurLimit_decCurLimit (s : AppState)
    (h0 : s.currentLimitAdjustIndex0 ≤ 7) (h1 : s.currentLimitAdjustIndex1 ≤ 7) :
    incCurLimit (decCurLimit s) = s := by
  obtain ⟨b0, b1, m0, m1, c0, c1, sa, sb, led, nd, de, csv, cav, adc, li0, li1, ai0, ai1, js⟩ := s
  by_cases hj : js = 0 <;>
    simp_all [incCurLimit, decCurLimit, AppState.currentLimitAdjustIndex, incIdx_decIdx]

lemma incCurLimit_adjustIndex (s : AppState) :
    (incCurLimit s).currentLimitAdjustIndex s.currentLimitAdjustSupply
      = incIdx (s.currentLimitAdjustIndex s.currentLimitAdjustSupply) := by
  by_cases hj : s.currentLimitAdjustSupply = 0 <;>
    simp [incCurLimit, AppState.currentLimitAdjustIndex, hj]

lemma decCurLimit_adjustIndex (s : AppState) :
    (decCurLimit s).currentLimitAdjustIndex s.currentLimitAdjustSupply
      = decIdx (s.currentLimitAdjustIndex s.currentLimitAdjustSupply) := by
  by_cases hj : s.currentLimitAdjustSupply = 0 <;>
    simp [decCurLimit, AppState.currentLimitAdjustIndex, hj]

/-- C9: `showCurrentLimit` — the entry action of every current-limit menu
state (`curLimit0`, `curLimit1`, `adjustCurLimit`, `showCurLimit` run on
entering menu states 4, 5, 6 and 9) — begins with `resetCurrentLimit()`,
so from every prior state it de-asserts both supplies' shutdown lines and
the status indicator: a latched overcurrent shutdown is cleared merely by
navigating into the current-limit menu. -/
theorem showCurrentLimitClearsShutdown (s : AppState) (supply : Nat) (arrow : CurrentLimitArrow) :
    (showCurrentLimit s supply arrow).shutdownA = false ∧
    (showCurrentLimit s supply arrow).shutdownB = false ∧
    (showCurrentLimit s supply arrow).statusLED = false ∧
    (curLimit0 s).shutdownA = false ∧
    (curLimit0 s).shutdownB = false ∧
    (curLimit0 s).statusLED = false ∧
    (curLimit1 s).shutdownA = false ∧
    (curLimit1 s).shutdownB = false ∧
    (curLimit1 s).statusLED = false ∧
    (adjustCurLimit s).shutdownA = false ∧
    (adjustCurLimit s).shutdownB = false ∧
    (adjustCurLimit s).statusLED = false ∧
    (showCurLimit s).shutdownA = false ∧
    (showCurLimit s).shutdownB = false ∧
    (showCurLimit s).statusLED = false := by
  simp [showCurrentLimit, resetCurrentLimit, curLimit0, curLimit1, adjustCurLimit, showCurLimit]

/-- C10: `acceptCurLimit` copies the pending index to the committed index
for both supplies in one call, and `rejectCurLimit` copies the committed
index back to the pending index for both supplies in one call; the supply
not selected for adjustment is not left unchanged. -/
theorem acceptRejectBothSupplies (s : AppState) :
    (acceptCurLimit s).currentLimitIndex0 = s.currentLimitAdjustIndex0 ∧
    (acceptCurLimit s).currentLimitIndex1 = s.currentLimitAdjustIndex1 ∧
    (acceptCurLimit s).currentLimitAdjustIndex0 = s.currentLimitAdjustIndex0 ∧
    (acceptCurLimit s).currentLimitAdjustIndex1 = s.currentLimitAdjustIndex1 ∧
    (rejectCurLimit s).currentLimitAdjustIndex0 = s.currentLimitIndex0 ∧
    (rejectCurLimit s).currentLimitAdjustIndex1 = s.currentLimitIndex1 ∧
    (rejectCurLimit s).currentLimitIndex0 = s.currentLimitIndex0 ∧
    (rejectCurLimit s).currentLimitIndex1 = s.currentLimitIndex1 := by
  simp [acceptCurLimit, rejectCurLimit]

/-- C8: `reportError` writes a severity tag (`Note:`/`Warn:`/`Fatl:`) and
the hex error code to the display; on `Fatal` it never returns (looping
forever after the message), and on `Note`/`Warning` it returns after a
fixed 1000 ms delay. -/
theorem reportErrorSeverity (c : Char) (code : Nat) (t : ErrorConditionType) :
    (reportError c code t).text =
      (match t with
        | ErrorConditionType.Note => "Note:"
        | ErrorConditionType.Warning => "Warn:"
        | ErrorConditionType.Fatal => "Fatl:") ++ toHex code
    ∧ ((reportError c code t).halts = true ↔ t = ErrorConditionType.Fatal)
    ∧ (reportError c code t).delayMs = (if t = ErrorConditionType.Fatal then 0 else 1000) := by
  cases t <;> simp [reportError]

/-- C5: for a pending limit index in 0..7, incrementing then decrementing
(and decrementing then incrementing) the pending index is the identity on
the whole state; incrementing from 7 wraps to 0 and decrementing from 0
wraps to 7, so the index stays within the 8-entry table; accept copies
pending to committed, reject copies committed to pending, and after a
reject the pending index equals the committed index. -/
theorem limitAdjustCommitReject (s : AppState)
    (h0 : s.currentLimitAdjustIndex0 ≤ 7) (h1 : s.currentLimitAdjustIndex1 ≤ 7) :
    decCurLimit (incCurLimit s) = s ∧
    incCurLimit (decCurLimit s) = s ∧
    (s.currentLimitAdjustIndex s.currentLimitAdjustSupply = 7 →
      (incCurLimit s).currentLimitAdjustIndex s.currentLimitAdjustSupply = 0) ∧
    (s.currentLimitAdjustIndex s.currentLimitAdjustSupply = 0 →
      (decCurLimit s).currentLimitAdjustIndex s.currentLimitAdjustSupply = 7) ∧
    (incCurLimit s).currentLimitAdjustIndex s.currentLimitAdjustSupply ≤ 7 ∧
    (decCurLimit s).currentLimitAdjustIndex s.currentLimitAdjustSupply ≤ 7 ∧
    (acceptCurLimit s).currentLimitIndex0 = s.currentLimitAdjustIndex0 ∧
    (acceptCurLimit s).currentLimitIndex1 = s.currentLimitAdjustIndex1 ∧
    (rejectCurLimit s).currentLimitAdjustIndex0 = s.currentLimitIndex0 ∧
    (rejectCurLimit s).currentLimitAdjustIndex1 = s.currentLimitIndex1 ∧
    (rejectCurLimit s).currentLimitAdjustIndex0 = (rejectCurLimit s).currentLimitIndex0 ∧
    (rejectCurLimit s).currentLimitAdjustIndex1 = (rejectCurLimit s).currentLimitIndex1 := by
  have hsel : s.currentLimitAdjustIndex s.currentLimitAdjustSupply ≤ 7 := by
    unfold AppState.currentLimitAdjustIndex
    split_ifs <;> assumption
  refine ⟨decCurLimit_incCurLimit s h0 h1, incCurLimit_decCurLimit s h0 h1,
    ?_, ?_, ?_, ?_, ?_, ?_, ?_, ?_, ?_, ?_⟩
  · intro h
    rw [incCurLimit_adjustIndex, h]
    decide
  · intro h
    rw [decCurLimit_adjustIndex, h]
    decide
  · rw [incCurLimit_adjustIndex]
    exact incIdx_le _
  · rw [decCurLimit_adjustIndex]
    exact decIdx_le _ hsel
  · simp [acceptCurLimit]
  · simp [acceptCurLimit]
  · simp [rejectCurLimit]
  · simp [rejectCurLimit]
  · simp [rejectCurLimit]
  · simp [rejectCurLimit]

/-- Witness for C5 at a concrete state. -/
theorem limitAdjustCommitReject_witness :
    baseState.currentLimitAdjustIndex0 ≤ 7 ∧ baseState.currentLimitAdjustIndex1 ≤ 7 ∧
    decCurLimit (incCurLimit baseState) = baseState := by
  refine ⟨by decide, by decide, ?_⟩
  exact (limitAdjustCommitReject baseState (by decide) (by decide)).1

lemma toInt16_eq_self (x : Int) (h1 : -32768 ≤ x) (h2 : x ≤ 32767) : toInt16 x = x := by
  unfold toInt16; omega

lemma storedMa_range (x : Int) : int16Range (storedMa x) := by
  unfold storedMa toInt16 int16Range
  generalize shuntToMa x = y
  omega

lemma shuntToMa_bounds (x : Int) (hx : x ≤ 32767) :
    0 ≤ shuntToMa x ∧ shuntToMa x ≤ 9929 := by
  have hm0 : 0 ≤ max x 0 := le_max_right x 0
  have hm1 : max x 0 ≤ 32767 := max_le hx (by norm_num)
  unfold shuntToMa
  generalize max x 0 = m at hm0 hm1
  omega

lemma storedMa_eq (x : Int) (hx : x ≤ 32767) : storedMa x = shuntToMa x := by
  have h := shuntToMa_bounds x hx
  exact toInt16_eq_self _ (by omega) (by omega)

lemma one0_spec (s : AppState) (r : SensorReading) (hr : int16Range s.shuntMilliAmps0) :
    updateCurrentSensorOne s 0 r =
      { s with
        busMilliVolts0 := r.bus,
        shuntMilliAmps0 := storedMa r.shunt,
        needsDisplay := s.needsDisplay || decide (r.bus ≠ s.busMilliVolts0)
          || decide (shuntToMa r.shunt ≠ s.shuntMilliAmps0),
        overCurrentCount0 :=
          if (curLimitMa s 0 : Int) * 10 < storedMa r.shunt then (s.overCurrentCount0 + 1) % 256 else 0,
        shutdownA :=
          if (curLimitMa s 0 : Int) * 10 < storedMa r.shunt ∧ 3 < s.overCurrentCount0 then true
          else s.shutdownA,
        statusLED :=
          if (curLimitMa s 0 : Int) * 10 < storedMa r.shunt ∧ 3 < s.overCurrentCount0 then true
          else s.statusLED } := by
  obtain ⟨b0, b1, m0, m1, c0, c1, sa, sb, led, nd, de, csv, cav, adc, li0, li1, ai0, ai1, js⟩ := s
  simp only [int16Range] at hr
  unfold updateCurrentSensorOne setCurrentLimit curLimitMa
  simp only [AppState.shuntMilliAmps, AppState.busMilliVolts, AppState.overCurrentCount,
    AppState.currentLimitIndex, if_pos rfl, ne_eq, ite_true, ite_false, gt_iff_lt]
  have hsm : storedMa r.shunt = toInt16 (shuntToMa r.shunt) := rfl
  split_ifs <;> simp_all [storedMa, toInt16_eq_self m0 hr.1 hr.2] <;> omega

set_option maxHeartbeats 1000000 in
lemma one1_spec (s : AppState) (r : SensorReading) (hr : int16Range s.shuntMilliAmps1) :
    updateCurrentSensorOne s 1 r =
      { s with
        busMilliVolts1 := r.bus,
        shuntMilliAmps1 := storedMa r.shunt,
        needsDisplay := s.needsDisplay || decide (r.bus ≠ s.busMilliVolts1)
          || decide (shuntToMa r.shunt ≠ s.shuntMilliAmps1),
        overCurrentCount1 :=
          if (curLimitMa s 1 : Int) * 10 < storedMa r.shunt then (s.overCurrentCount1 + 1) % 256 else 0,
        shutdownB :=
          if (curLimitMa s 1 : Int) * 10 < storedMa r.shunt ∧ 3 < s.overCurrentCount1 then true
          else s.shutdownB,
        statusLED :=
          if (curLimitMa s 1 : Int) * 10 < storedMa r.shunt ∧ 3 < s.overCurrentCount1 then true
          else s.statusLED } := by
  obtain ⟨b0, b1, m0, m1, c0, c1, sa, sb, led, nd, de, csv, cav, adc, li0, li1, ai0, ai1, js⟩ := s
  simp only [int16Range] at hr
  unfold updateCurrentSensorOne setCurrentLimit curLimitMa
  simp only [AppState.shuntMilliAmps, AppState.busMilliVolts, AppState.overCurrentCount,
    AppState.currentLimitIndex, reduceIte, ne_eq, gt_iff_lt]
  have hsm : storedMa r.shunt = toInt16 (shuntToMa r.shunt) := rfl
  split_ifs <;> simp_all [storedMa, toInt16_eq_self m1 hr.1 hr.2] <;> omega

lemma runPolls_nil (s : AppState) : runPolls s [] = s := rfl

lemma runPolls_cons (s : AppState) (r : Readings) (rs : List Readings) :
    runPolls s (r :: rs) = runPolls (updateCurrentSensor s r) rs := rfl

lemma runPolls_append (s : AppState) (xs ys : List Readings) :
    runPolls s (xs ++ ys) = runPolls (runPolls s xs) ys :=
  List.foldl_append _ _ _ _

set_option maxHeartbeats 1600000 in
lemma one0_preserves (s : AppState) (r : SensorReading) :
    (updateCurrentSensorOne s 0 r).busMilliVolts1 = s.busMilliVolts1 ∧
    (updateCurrentSensorOne s 0 r).shuntMilliAmps1 = s.shuntMilliAmps1 ∧
    (updateCurrentSensorOne s 0 r).overCurrentCount1 = s.overCurrentCount1 ∧
    (updateCurrentSensorOne s 0 r).shutdownB = s.shutdownB ∧
    (updateCurrentSensorOne s 0 r).currentLimitIndex0 = s.currentLimitIndex0 ∧
    (updateCurrentSensorOne s 0 r).currentLimitIndex1 = s.currentLimitIndex1 ∧
    (updateCurrentSensorOne s 0 r).displayEnabled = s.displayEnabled := by
  obtain ⟨b0, b1, m0, m1, c0, c1, sa, sb, led, nd, de, csv, cav, adc, li0, li1, ai0, ai1, js⟩ := s
  unfold updateCurrentSensorOne setCurrentLimit curLimitMa
  simp only [AppState.shuntMilliAmps, AppState.busMilliVolts, AppState.overCurrentCount,
    AppState.currentLimitIndex, reduceIte, ne_eq, gt_iff_lt]
  split_ifs <;> simp_all

set_option maxHeartbeats 1600000 in
lemma one1_preserves (s : AppState) (r : SensorReading) :
    (updateCurrentSensorOne s 1 r).busMilliVolts0 = s.busMilliVolts0 ∧
    (updateCurrentSensorOne s 1 r).shuntMilliAmps0 = s.shuntMilliAmps0 ∧
    (updateCurrentSensorOne s 1 r).overCurrentCount0 = s.overCurrentCount0 ∧
    (updateCurrentSensorOne s 1 r).shutdownA = s.shutdownA ∧
    (updateCurrentSensorOne s 1 r).currentLimitIndex0 = s.currentLimitIndex0 ∧
    (updateCurrentSensorOne s 1 r).currentLimitIndex1 = s.currentLimitIndex1 ∧
    (updateCurrentSensorOne s 1 r).displayEnabled = s.displayEnabled := by
  obtain ⟨b0, b1, m0, m1, c0, c1, sa, sb, led, nd, de, csv, cav, adc, li0, li1, ai0, ai1, js⟩ := s
  unfold updateCurrentSensorOne setCurrentLimit curLimitMa
  simp only [AppState.shuntMilliAmps, AppState.busMilliVolts, AppState.overCurrentCount,
    AppState.currentLimitIndex, reduceIte, ne_eq, gt_iff_lt]
  split_ifs <;> simp_all

set_option maxHeartbeats 1600000 in
lemma one_mono (s : AppState) (i : Nat) (r : SensorReading) :
    (s.shutdownA = true → (updateCurrentSensorOne s i r).shutdownA = true) ∧
    (s.shutdownB = true → (updateCurrentSensorOne s i r).shutdownB = true) ∧
    (s.statusLED = true → (updateCurrentSensorOne s i r).statusLED = true) := by
  obtain ⟨b0, b1, m0, m1, c0, c1, sa, sb, led, nd, de, csv, cav, adc, li0, li1, ai0, ai1, js⟩ := s
  unfold updateCurrentSensorOne setCurrentLimit curLimitMa
  simp only [AppState.shuntMilliAmps, AppState.busMilliVolts, AppState.overCurrentCount,
    AppState.currentLimitIndex, ne_eq, gt_iff_lt]
  split_ifs <;> simp_all

lemma poll_mono (s : AppState) (r : Readings) :
    (s.shutdownA = true → (updateCurrentSensor s r).shutdownA = true) ∧
    (s.shutdownB = true → (updateCurrentSensor s r).shutdownB = true) ∧
    (s.statusLED = true → (updateCurrentSensor s r).statusLED = true) := by
  unfold updateCurrentSensor
  refine ⟨fun h => ?_, fun h => ?_, fun h => ?_⟩
  · exact (one_mono _ 1 _).1 ((one_mono s 0 r.supply0).1 h)
  · exact (one_mono _ 1 _).2.1 ((one_mono s 0 r.supply0).2.1 h)
  · exact (one_mono _ 1 _).2.2 ((one_mono s 0 r.supply0).2.2 h)

lemma runPolls_mono (s : AppState) (rs : List Readings) :
    (s.shutdownA = true → (runPolls s rs).shutdownA = true) ∧
    (s.shutdownB = true → (runPolls s rs).shutdownB = true) ∧
    (s.statusLED = true → (runPolls s rs).statusLED = true) := by
  induction rs generalizing s with
  | nil => exact ⟨fun h => h, fun h => h, fun h => h⟩
  | cons r rest ih =>
    rw [runPolls_cons]
    refine ⟨fun h => ?_, fun h => ?_, fun h => ?_⟩
    · exact (ih _).1 ((poll_mono s r).1 h)
    · exact (ih _).2.1 ((poll_mono s r).2.1 h)
    · exact (ih _).2.2 ((poll_mono s r).2.2 h)

lemma poll_over0 (s : AppState) (r : Readings)
    (hr0 : int16Range s.shuntMilliAmps0) (hr1 : int16Range s.shuntMilliAmps1)
    (hover : (curLimitMa s 0 : Int) * 10 < storedMa r.supply0.shunt)
    (hin : storedMa r.supply1.shunt ≤ (curLimitMa s 1 : Int) * 10) :
    (updateCurrentSensor s r).overCurrentCount0 = (s.overCurrentCount0 + 1) % 256 ∧
    (updateCurrentSensor s r).overCurrentCount1 = 0 ∧
    (updateCurrentSensor s r).shutdownA = (if 3 < s.overCurrentCount0 then true else s.shutdownA) ∧
    (updateCurrentSensor s r).shutdownB = s.shutdownB ∧
    (updateCurrentSensor s r).statusLED = (if 3 < s.overCurrentCount0 then true else s.statusLED) ∧
    (updateCurrentSensor s r).currentLimitIndex0 = s.currentLimitIndex0 ∧
    (updateCurrentSensor s r).currentLimitIndex1 = s.currentLimitIndex1 ∧
    int16Range (updateCurrentSensor s r).shuntMilliAmps0 ∧
    int16Range (updateCurrentSensor s r).shuntMilliAmps1 := by
  have h0 := one0_spec s r.supply0 hr0
  have hr1x : int16Range (updateCurrentSensorOne s 0 r.supply0).shuntMilliAmps1 := by
    rw [h0]; exact hr1
  have h1 := one1_spec (updateCurrentSensorOne s 0 r.supply0) r.supply1 hr1x
  unfold updateCurrentSensor
  rw [h1, h0]
  simp [curLimitMa, AppState.currentLimitIndex] at hover hin
  simp [curLimitMa, AppState.currentLimitIndex, hover, not_lt.mpr hin, storedMa_range]

lemma poll_over1 (s : AppState) (r : Readings)
    (hr0 : int16Range s.shuntMilliAmps0) (hr1 : int16Range s.shuntMilliAmps1)
    (hover : (curLimitMa s 1 : Int) * 10 < storedMa r.supply1.shunt)
    (hin : storedMa r.supply0.shunt ≤ (curLimitMa s 0 : Int) * 10) :
    (updateCurrentSensor s r).overCurrentCount1 = (s.overCurrentCount1 + 1) % 256 ∧
    (updateCurrentSensor s r).overCurrentCount0 = 0 ∧
    (updateCurrentSensor s r).shutdownB = (if 3 < s.overCurrentCount1 then true else s.shutdownB) ∧
    (updateCurrentSensor s r).shutdownA = s.shutdownA ∧
    (updateCurrentSensor s r).statusLED = (if 3 < s.overCurrentCount1 then true else s.statusLED) ∧
    (updateCurrentSensor s r).currentLimitIndex0 = s.currentLimitIndex0 ∧
    (updateCurrentSensor s r).currentLimitIndex1 = s.currentLimitIndex1 ∧
    int16Range (updateCurrentSensor s r).shuntMilliAmps0 ∧
    int16Range (updateCurrentSensor s r).shuntMilliAmps1 := by
  have h0 := one0_spec s r.supply0 hr0
  have hr1x : int16Range (updateCurrentSensorOne s 0 r.supply0).shuntMilliAmps1 := by
    rw [h0]; exact hr1
  have h1 := one1_spec (updateCurrentSensorOne s 0 r.supply0) r.supply1 hr1x
  unfold updateCurrentSensor
  rw [h1, h0]
  simp [curLimitMa, AppState.currentLimitIndex] at hover hin
  simp [curLimitMa, AppState.currentLimitIndex, hover, not_lt.mpr hin, storedMa_range]

lemma poll_in0 (s : AppState) (r : Readings)
    (hr0 : int16Range s.shuntMilliAmps0)
    (hin : storedMa r.supply0.shunt ≤ (curLimitMa s 0 : Int) * 10) :
    (updateCurrentSensor s r).overCurrentCount0 = 0 := by
  unfold updateCurrentSensor
  rw [one0_spec s r.supply0 hr0]
  rw [(one1_preserves _ r.supply1).2.2.1]
  simp [curLimitMa, AppState.currentLimitIndex] at hin
  simp [curLimitMa, AppState.currentLimitIndex, not_lt.mpr hin]

lemma poll_in1 (s : AppState) (r : Readings)
    (hr0 : int16Range s.shuntMilliAmps0) (hr1 : int16Range s.shuntMilliAmps1)
    (hin : storedMa r.supply1.shunt ≤ (curLimitMa s 1 : Int) * 10) :
    (updateCurrentSensor s r).overCurrentCount1 = 0 := by
  have h0 := one0_spec s r.supply0 hr0
  have hr1x : int16Range (updateCurrentSensorOne s 0 r.supply0).shuntMilliAmps1 := by
    rw [h0]; exact hr1
  have h1 := one1_spec (updateCurrentSensorOne s 0 r.supply0) r.supply1 hr1x
  unfold updateCurrentSensor
  rw [h1, h0]
  simp [curLimitMa, AppState.currentLimitIndex] at hin
  simp [curLimitMa, AppState.currentLimitIndex, not_lt.mpr hin]

lemma poll_unchanged (s : AppState) (r : Readings)
    (hr0 : int16Range s.shuntMilliAmps0) (hr1 : int16Range s.shuntMilliAmps1)
    (hb0 : r.supply0.bus = s.busMilliVolts0) (hm0 : shuntToMa r.supply0.shunt = s.shuntMilliAmps0)
    (hb1 : r.supply1.bus = s.busMilliVolts1) (hm1 : shuntToMa r.supply1.shunt = s.shuntMilliAmps1) :
    (updateCurrentSensor s r).needsDisplay = s.needsDisplay ∧
    (updateCurrentSensor s r).busMilliVolts0 = s.busMilliVolts0 ∧
    (updateCurrentSensor s r).busMilliVolts1 = s.busMilliVolts1 ∧
    (updateCurrentSensor s r).shuntMilliAmps0 = s.shuntMilliAmps0 ∧
    (updateCurrentSensor s r).shuntMilliAmps1 = s.shuntMilliAmps1 ∧
    (updateCurrentSensor s r).displayEnabled = s.displayEnabled := by
  have h0 := one0_spec s r.supply0 hr0
  have hr1x : int16Range (updateCurrentSensorOne s 0 r.supply0).shuntMilliAmps1 := by
    rw [h0]; exact hr1
  have h1 := one1_spec (updateCurrentSensorOne s 0 r.supply0) r.supply1 hr1x
  simp only [int16Range] at hr0 hr1
  have e0 : storedMa r.supply0.shunt = s.shuntMilliAmps0 := by
    rw [storedMa, hm0, toInt16_eq_self _ hr0.1 hr0.2]
  have e1 : storedMa r.supply1.shunt = s.shuntMilliAmps1 := by
    rw [storedMa, hm1, toInt16_eq_self _ hr1.1 hr1.2]
  unfold updateCurrentSensor
  rw [h1, h0]
  simp [hb0, hm0, hb1, hm1, e0, e1]

lemma curLimitMa_congr (t s : AppState) (k : Nat)
    (h0 : t.currentLimitIndex0 = s.currentLimitIndex0)
    (h1 : t.currentLimitIndex1 = s.currentLimitIndex1) :
    curLimitMa t k = curLimitMa s k := by
  unfold curLimitMa AppState.currentLimitIndex
  split_ifs <;> simp [h0, h1]

lemma overPolls0 (polls : List Readings) : ∀ s : AppState,
    int16Range s.shuntMilliAmps0 → int16Range s.shuntMilliAmps1 →
    (∀ r ∈ polls, (curLimitMa s 0 : Int) * 10 < storedMa r.supply0.shunt) →
    (∀ r ∈ polls, storedMa r.supply1.shunt ≤ (curLimitMa s 1 : Int) * 10) →
    s.overCurrentCount0 + polls.length ≤ 4 →
    (runPolls s polls).overCurrentCount0 = s.overCurrentCount0 + polls.length ∧
    (runPolls s polls).shutdownA = s.shutdownA ∧
    (runPolls s polls).shutdownB = s.shutdownB ∧
    (runPolls s polls).statusLED = s.statusLED ∧
    (runPolls s polls).currentLimitIndex0 = s.currentLimitIndex0 ∧
    (runPolls s polls).currentLimitIndex1 = s.currentLimitIndex1 ∧
    int16Range (runPolls s polls).shuntMilliAmps0 ∧
    int16Range (runPolls s polls).shuntMilliAmps1 := by
  induction polls with
  | nil =>
    intro s hr0 hr1 _ _ _
    simp [runPolls_nil, hr0, hr1]
  | cons r rest ih =>
    intro s hr0 hr1 hover hin hcnt
    simp only [List.length_cons] at hcnt
    obtain ⟨hp1, hp2, hp3, hp4, hp5, hp6, hp7, hp8, hp9⟩ :=
      poll_over0 s r hr0 hr1 (hover r (List.mem_cons_self r rest)) (hin r (List.mem_cons_self r rest))
    have hc3 : ¬ 3 < s.overCurrentCount0 := by omega
    have hc' : (updateCurrentSensor s r).overCurrentCount0 = s.overCurrentCount0 + 1 := by
      rw [hp1]
      exact Nat.mod_eq_of_lt (by omega)
    have hl0 : curLimitMa (updateCurrentSensor s r) 0 = curLimitMa s 0 :=
      curLimitMa_congr _ _ _ hp6 hp7
    have hl1 : curLimitMa (updateCurrentSensor s r) 1 = curLimitMa s 1 :=
      curLimitMa_congr _ _ _ hp6 hp7
    obtain ⟨i1, i2, i3, i4, i5, i6, i7, i8⟩ :=
      ih (updateCurrentSensor s r) hp8 hp9
        (fun x hx => by rw [hl0]; exact hover x (List.mem_cons_of_mem r hx))
        (fun x hx => by rw [hl1]; exact hin x (List.mem_cons_of_mem r hx))
        (by omega)
    rw [runPolls_cons]
    simp only [List.length_cons]
    refine ⟨?_, ?_, ?_, ?_, ?_, ?_, i7, i8⟩
    · rw [i1, hc']; omega
    · rw [i2, hp3, if_neg hc3]
    · rw [i3, hp4]
    · rw [i4, hp5, if_neg hc3]
    · rw [i5, hp6]
    · rw [i6, hp7]

lemma overPolls1 (polls : List Readings) : ∀ s : AppState,
    int16Range s.shuntMilliAmps0 → int16Range s.shuntMilliAmps1 →
    (∀ r ∈ polls, (curLimitMa s 1 : Int) * 10 < storedMa r.supply1.shunt) →
    (∀ r ∈ polls, storedMa r.supply0.shunt ≤ (curLimitMa s 0 : Int) * 10) →
    s.overCurrentCount1 + polls.length ≤ 4 →
    (runPolls s polls).overCurrentCount1 = s.overCurrentCount1 + polls.length ∧
    (runPolls s polls).shutdownA = s.shutdownA ∧
    (runPolls s polls).shutdownB = s.shutdownB ∧
    (runPolls s polls).statusLED = s.statusLED ∧
    (runPolls s polls).currentLimitIndex0 = s.currentLimitIndex0 ∧
    (runPolls s polls).currentLimitIndex1 = s.currentLimitIndex1 ∧
    int16Range (runPolls s polls).shuntMilliAmps0 ∧
    int16Range (runPolls s polls).shuntMilliAmps1 := by
  induction polls with
  | nil =>
    intro s hr0 hr1 _ _ _
    simp [runPolls_nil, hr0, hr1]
  | cons r rest ih =>
    intro s hr0 hr1 hover hin hcnt
    simp only [List.length_cons] at hcnt
    obtain ⟨hp1, hp2, hp3, hp4, hp5, hp6, hp7, hp8, hp9⟩ :=
      poll_over1 s r hr0 hr1 (hover r (List.mem_cons_self r rest)) (hin r (List.mem_cons_self r rest))
    have hc3 : ¬ 3 < s.overCurrentCount1 := by omega
    have hc' : (updateCurrentSensor s r).overCurrentCount1 = s.overCurrentCount1 + 1 := by
      rw [hp1]
      exact Nat.mod_eq_of_lt (by omega)
    have hl0 : curLimitMa (updateCurrentSensor s r) 0 = curLimitMa s 0 :=
      curLimitMa_congr _ _ _ hp6 hp7
    have hl1 : curLimitMa (updateCurrentSensor s r) 1 = curLimitMa s 1 :=
      curLimitMa_congr _ _ _ hp6 hp7
    obtain ⟨i1, i2, i3, i4, i5, i6, i7, i8⟩ :=
      ih (updateCurrentSensor s r) hp8 hp9
        (fun x hx => by rw [hl1]; exact hover x (List.mem_cons_of_mem r hx))
        (fun x hx => by rw [hl0]; exact hin x (List.mem_cons_of_mem r hx))
        (by omega)
    rw [runPolls_cons]
    simp only [List.length_cons]
    refine ⟨?_, ?_, ?_, ?_, ?_, ?_, i7, i8⟩
    · rw [i1, hc']; omega
    · rw [i2, hp4]
    · rw [i3, hp3, if_neg hc3]
    · rw [i4, hp5, if_neg hc3]
    · rw [i5, hp6]
    · rw [i6, hp7]

lemma overPolls0_latch (polls : List Readings) (s : AppState)
    (hr0 : int16Range s.shuntMilliAmps0) (hr1 : int16Range s.shuntMilliAmps1)
    (hover : ∀ r ∈ polls, (curLimitMa s 0 : Int) * 10 < storedMa r.supply0.shunt)
    (hin : ∀ r ∈ polls, storedMa r.supply1.shunt ≤ (curLimitMa s 1 : Int) * 10)
    (hc : s.overCurrentCount0 = 0) (hlen : 5 ≤ polls.length) :
    (runPolls s polls).shutdownA = true ∧ (runPolls s polls).statusLED = true := by
  obtain ⟨p, tl, hd⟩ : ∃ p tl, polls.drop 4 = p :: tl := by
    cases hq : polls.drop 4 with
    | nil =>
      have := polls.length_drop 4
      rw [hq] at this
      simp at this
      omega
    | cons p tl => exact ⟨p, tl, rfl⟩
  have hsplit : polls = polls.take 4 ++ (p :: tl) := by
    rw [← hd, List.take_append_drop]
  obtain ⟨q1, q2, q3, q4, q5, q6, q7, q8⟩ :=
    overPolls0 (polls.take 4) s hr0 hr1
      (fun x hx => hover x (polls.take_subset 4 hx))
      (fun x hx => hin x (polls.take_subset 4 hx))
      (by rw [hc, List.length_take]; omega)
  have hlen4 : (polls.take 4).length = 4 := by
    rw [List.length_take]; omega
  have hpm : p ∈ polls := polls.drop_subset 4 (hd ▸ List.mem_cons_self p tl)
  have hs4c : (runPolls s (polls.take 4)).overCurrentCount0 = 4 := by
    rw [q1, hc, hlen4]
  obtain ⟨w1, w2, w3, w4, w5, w6, w7, w8, w9⟩ :=
    poll_over0 (runPolls s (polls.take 4)) p q7 q8
      (by rw [curLimitMa_congr _ s _ q5 q6]; exact hover p hpm)
      (by rw [curLimitMa_congr _ s _ q5 q6]; exact hin p hpm)
  have h5A : (updateCurrentSensor (runPolls s (polls.take 4)) p).shutdownA = true := by
    rw [w3, hs4c]; simp
  have h5L : (updateCurrentSensor (runPolls s (polls.take 4)) p).statusLED = true := by
    rw [w5, hs4c]; simp
  rw [hsplit, runPolls_append]
  rw [runPolls_cons]
  exact ⟨(runPolls_mono _ tl).1 h5A, (runPolls_mono _ tl).2.2 h5L⟩

lemma overPolls1_latch (polls : List Readings) (s : AppState)
    (hr0 : int16Range s.shuntMilliAmps0) (hr1 : int16Range s.shuntMilliAmps1)
    (hover : ∀ r ∈ polls, (curLimitMa s 1 : Int) * 10 < storedMa r.supply1.shunt)
    (hin : ∀ r ∈ polls, storedMa r.supply0.shunt ≤ (curLimitMa s 0 : Int) * 10)
    (hc : s.overCurrentCount1 = 0) (hlen : 5 ≤ polls.length) :
    (runPolls s polls).shutdownB = true ∧ (runPolls s polls).statusLED = true := by
  obtain ⟨p, tl, hd⟩ : ∃ p tl, polls.drop 4 = p :: tl := by
    cases hq : polls.drop 4 with
    | nil =>
      have := polls.length_drop 4
      rw [hq] at this
      simp at this
      omega
    | cons p tl => exact ⟨p, tl, rfl⟩
  have hsplit : polls = polls.take 4 ++ (p :: tl) := by
    rw [← hd, List.take_append_drop]
  obtain ⟨q1, q2, q3, q4, q5, q6, q7, q8⟩ :=
    overPolls1 (polls.take 4) s hr0 hr1
      (fun x hx => hover x (polls.take_subset 4 hx))
      (fun x hx => hin x (polls.take_subset 4 hx))
      (by rw [hc, List.length_take]; omega)
  have hlen4 : (polls.take 4).length = 4 := by
    rw [List.length_take]; omega
  have hpm : p ∈ polls := polls.drop_subset 4 (hd ▸ List.mem_cons_self p tl)
  have hs4c : (runPolls s (polls.take 4)).overCurrentCount1 = 4 := by
    rw [q1, hc, hlen4]
  obtain ⟨w1, w2, w3, w4, w5, w6, w7, w8, w9⟩ :=
    poll_over1 (runPolls s (polls.take 4)) p q7 q8
      (by rw [curLimitMa_congr _ s _ q5 q6]; exact hover p hpm)
      (by rw [curLimitMa_congr _ s _ q5 q6]; exact hin p hpm)
  have h5B : (updateCurrentSensor (runPolls s (polls.take 4)) p).shutdownB = true := by
    rw [w3, hs4c]; simp
  have h5L : (updateCurrentSensor (runPolls s (polls.take 4)) p).statusLED = true := by
    rw [w5, hs4c]; simp
  rw [hsplit, runPolls_append]
  rw [runPolls_cons]
  exact ⟨(runPolls_mono _ tl).2.1 h5B, (runPolls_mono _ tl).2.2 h5L⟩

lemma updateDisplay_not_dirty (t : AppState) (h : t.needsDisplay = false) :
    updateDisplay t = (t, false) := by
  unfold updateDisplay
  rw [h]
  simp

lemma pollsDisplay_aux (rs : List Readings) : ∀ (s : AppState) (k : Nat),
    int16Range s.shuntMilliAmps0 → int16Range s.shuntMilliAmps1 →
    s.needsDisplay = false →
    (∀ r ∈ rs, r.supply0.bus = s.busMilliVolts0 ∧ shuntToMa r.supply0.shunt = s.shuntMilliAmps0 ∧
      r.supply1.bus = s.busMilliVolts1 ∧ shuntToMa r.supply1.shunt = s.shuntMilliAmps1) →
    (rs.foldl
      (fun acc r =>
        let d := updateDisplay (updateCurrentSensor acc.1 r)
        (d.1, acc.2 + if d.2 then 1 else 0))
      (s, k)).2 = k := by
  induction rs with
  | nil => intro s k _ _ _ _; rfl
  | cons r rest ih =>
    intro s k hr0 hr1 hnd hmatch
    obtain ⟨e1, e2, e3, e4⟩ := hmatch r (List.mem_cons_self r rest)
    obtain ⟨u1, u2, u3, u4, u5, u6⟩ := poll_unchanged s r hr0 hr1 e1 e2 e3 e4
    have hndt : (updateCurrentSensor s r).needsDisplay = false := by rw [u1, hnd]
    have hud : updateDisplay (updateCurrentSensor s r) = (updateCurrentSensor s r, false) :=
      updateDisplay_not_dirty _ hndt
    rw [List.foldl_cons]
    simp only [hud]
    have step : ((updateCurrentSensor s r : AppState), k + if false then 1 else 0)
        = (updateCurrentSensor s r, k) := by simp
    rw [step]
    exact ih (updateCurrentSensor s r) k (u4 ▸ hr0) (u5 ▸ hr1) hndt
      (fun x hx => by
        obtain ⟨f1, f2, f3, f4⟩ := hmatch x (List.mem_cons_of_mem r hx)
        exact ⟨by rw [u2, f1], by rw [u4, f2], by rw [u3, f3], by rw [u5, f4]⟩)


/-- C1 (amended): for supply `i`, starting from a zero consecutive
overcurrent counter with shutdown and indicator de-asserted, polls whose
stored milliamp reading is over the committed threshold (and in-limit on
the other supply) leave the shutdown line and indicator de-asserted for
N ≤ 4 consecutive polls, assert both at N = 5, and once asserted they stay
asserted on every subsequent poll — in-limit or not — until
`resetCurrentLimit` clears them. -/
theorem overcurrentShutdownLatching (i : Nat) (hi : i < 2) (s0 : AppState)
    (polls : List Readings) (N : Nat)
    (hr0 : int16Range s0.shuntMilliAmps0) (hr1 : int16Range s0.shuntMilliAmps1)
    (hc : s0.overCurrentCount i = 0)
    (hsd : s0.shutdown i = false) (hled : s0.statusLED = false)
    (hover : ∀ r ∈ polls, (curLimitMa s0 i : Int) * 10 < storedMa ((r.get i).shunt))
    (hin : ∀ r ∈ polls, storedMa ((r.get (1 - i)).shunt) ≤ (curLimitMa s0 (1 - i) : Int) * 10)
    (hN : N ≤ polls.length) :
    (N ≤ 4 → (runPolls s0 (polls.take N)).shutdown i = false ∧
      (runPolls s0 (polls.take N)).statusLED = false) ∧
    (5 ≤ N → (runPolls s0 (polls.take N)).shutdown i = true ∧
      (runPolls s0 (polls.take N)).statusLED = true) ∧
    (∀ t : AppState, ∀ rs : List Readings, t.shutdown i = true →
      (runPolls t rs).shutdown i = true) ∧
    (∀ t : AppState, (resetCurrentLimit t).shutdown i = false ∧
      (resetCurrentLimit t).statusLED = false) := by
  interval_cases i
  · simp only [Nat.sub_zero, Readings.get, AppState.overCurrentCount, AppState.shutdown,
      reduceIte, one_ne_zero] at hc hsd hover hin ⊢
    refine ⟨fun h4 => ?_, fun h5 => ?_, fun t rs h => (runPolls_mono t rs).1 h,
      fun t => by simp [resetCurrentLimit]⟩
    · obtain ⟨q1, q2, q3, q4, q5, q6, q7, q8⟩ :=
        overPolls0 (polls.take N) s0 hr0 hr1
          (fun x hx => hover x (polls.take_subset N hx))
          (fun x hx => hin x (polls.take_subset N hx))
          (by rw [hc, List.length_take]; omega)
      exact ⟨by rw [q2, hsd], by rw [q4, hled]⟩
    · exact overPolls0_latch (polls.take N) s0 hr0 hr1
        (fun x hx => hover x (polls.take_subset N hx))
        (fun x hx => hin x (polls.take_subset N hx))
        hc (by rw [List.length_take]; omega)
  · simp only [Nat.sub_self, Readings.get, AppState.overCurrentCount, AppState.shutdown,
      reduceIte, one_ne_zero] at hc hsd hover hin ⊢
    refine ⟨fun h4 => ?_, fun h5 => ?_, fun t rs h => (runPolls_mono t rs).2.1 h,
      fun t => by simp [resetCurrentLimit]⟩
    · obtain ⟨q1, q2, q3, q4, q5, q6, q7, q8⟩ :=
        overPolls1 (polls.take N) s0 hr0 hr1
          (fun x hx => hover x (polls.take_subset N hx))
          (fun x hx => hin x (polls.take_subset N hx))
          (by rw [hc, List.length_take]; omega)
      exact ⟨by rw [q3, hsd], by rw [q4, hled]⟩
    · exact overPolls1_latch (polls.take N) s0 hr0 hr1
        (fun x hx => hover x (polls.take_subset N hx))
        (fun x hx => hin x (polls.take_subset N hx))
        hc (by rw [List.length_take]; omega)

/-- Witness for C1: five over-limit polls on supply 0 from `baseState`
latch the shutdown line and indicator. -/
theorem overcurrentShutdownLatching_witness :
    baseState.overCurrentCount 0 = 0 ∧
    (runPolls baseState ((List.replicate 5 overReading).take 5)).shutdown 0 = true ∧
    (runPolls baseState ((List.replicate 5 overReading).take 5)).statusLED = true := by
  have hover : ∀ r ∈ List.replicate 5 overReading,
      (curLimitMa baseState 0 : Int) * 10 < storedMa ((r.get 0).shunt) := by
    intro r hr
    rw [List.eq_of_mem_replicate hr]
    decide
  have hin : ∀ r ∈ List.replicate 5 overReading,
      storedMa ((r.get (1 - 0)).shunt) ≤ (curLimitMa baseState (1 - 0) : Int) * 10 := by
    intro r hr
    rw [List.eq_of_mem_replicate hr]
    decide
  have h := overcurrentShutdownLatching 0 (by decide) baseState (List.replicate 5 overReading) 5
    (by decide) (by decide) (by decide) (by decide) (by decide) hover hin (by decide)
  exact ⟨by decide, (h.2.1 (by decide)).1, (h.2.1 (by decide)).2⟩

/-- C1 counterexample: the claim asserts shutdown at N = 4, but after four
consecutive over-limit polls from a zero counter the shutdown line and the
status indicator are still de-asserted (the post-increment test
`_overCurrentCount[i]++ > 3` first fires on the fifth poll). -/
theorem overcurrentAtFour_counterexample :
    baseState.overCurrentCount0 = 0 ∧
    baseState.shutdownA = false ∧
    (curLimitMa baseState 0 : Int) * 10 < storedMa overReading.supply0.shunt ∧
    (runPolls baseState (List.replicate 4 overReading)).shutdownA = false ∧
    (runPolls baseState (List.replicate 4 overReading)).statusLED = false := by
  decide

/-- C2 (amended): any in-limit poll resets the consecutive-overcurrent
counter of that supply to zero — including after a shutdown has latched —
while `resetCurrentLimit` clears the shutdown lines and the indicator but
leaves both counters unchanged. -/
theorem inLimitResetsCounter (i : Nat) (hi : i < 2) (s : AppState) (r : Readings)
    (hr0 : int16Range s.shuntMilliAmps0) (hr1 : int16Range s.shuntMilliAmps1)
    (hin : storedMa ((r.get i).shunt) ≤ (curLimitMa s i : Int) * 10) :
    (updateCurrentSensor s r).overCurrentCount i = 0 ∧
    (resetCurrentLimit s).overCurrentCount0 = s.overCurrentCount0 ∧
    (resetCurrentLimit s).overCurrentCount1 = s.overCurrentCount1 ∧
    (resetCurrentLimit s).shutdownA = false ∧
    (resetCurrentLimit s).shutdownB = false ∧
    (resetCurrentLimit s).statusLED = false := by
  interval_cases i
  · simp only [Readings.get, AppState.overCurrentCount, reduceIte] at hin ⊢
    exact ⟨poll_in0 s r hr0 hin, rfl, rfl, rfl, rfl, rfl⟩
  · simp only [Readings.get, AppState.overCurrentCount, reduceIte, one_ne_zero] at hin ⊢
    exact ⟨poll_in1 s r hr0 hr1 hin, rfl, rfl, rfl, rfl, rfl⟩

/-- Witness for C2 at a latched concrete state. -/
theorem inLimitResetsCounter_witness :
    latchedState.shutdownA = true ∧ 3 < latchedState.overCurrentCount0 ∧
    (updateCurrentSensor latchedState inReading).overCurrentCount 0 = 0 ∧
    (resetCurrentLimit latchedState).overCurrentCount0 = latchedState.overCurrentCount0 := by
  have h := inLimitResetsCounter 0 (by decide) latchedState inReading
    (by decide) (by decide) (by decide)
  exact ⟨by decide, by decide, h.1, h.2.1⟩

/-- C2 counterexample: with the counter at 5 and the shutdown latched, a
single in-limit poll resets the counter to zero, and the explicit reset
action leaves the counter untouched — contradicting the claim that no
poll resets the counter after shutdown. -/
theorem shutdownCounterReset_counterexample :
    latchedState.shutdownA = true ∧
    latchedState.overCurrentCount0 = 5 ∧
    storedMa inReading.supply0.shunt ≤ (curLimitMa latchedState 0 : Int) * 10 ∧
    (updateCurrentSensor latchedState inReading).overCurrentCount0 = 0 ∧
    (resetCurrentLimit latchedState).overCurrentCount0 = 5 := by
  decide

/-- C4: on every poll and for each supply, the stored shunt-milliamp value
equals `(max(v, 0) * 100 + 165) / 330` in truncating integer arithmetic,
where `v` is the raw shunt-millivolt reading (an in-range `int16` register
value): negatives are clamped to zero before the linear transform. -/
theorem shuntMilliAmpsFormula (s : AppState) (r : Readings)
    (hr0 : int16Range s.shuntMilliAmps0) (hr1 : int16Range s.shuntMilliAmps1)
    (hx0 : r.supply0.shunt ≤ 32767) (hx1 : r.supply1.shunt ≤ 32767) :
    (updateCurrentSensor s r).shuntMilliAmps0 = (max r.supply0.shunt 0 * 100 + 165) / 330 ∧
    (updateCurrentSensor s r).shuntMilliAmps1 = (max r.supply1.shunt 0 * 100 + 165) / 330 := by
  have h0 := one0_spec s r.supply0 hr0
  have hr1x : int16Range (updateCurrentSensorOne s 0 r.supply0).shuntMilliAmps1 := by
    rw [h0]; exact hr1
  have h1 := one1_spec (updateCurrentSensorOne s 0 r.supply0) r.supply1 hr1x
  unfold updateCurrentSensor
  rw [h1, h0]
  constructor
  · show storedMa r.supply0.shunt = _
    rw [storedMa_eq _ hx0, shuntToMa]
  · show storedMa r.supply1.shunt = _
    rw [storedMa_eq _ hx1, shuntToMa]

/-- Witness for C4 at a concrete state and reading. -/
theorem shuntMilliAmpsFormula_witness :
    overReading.supply1.shunt ≤ 32767 ∧
    (updateCurrentSensor baseState inReading).shuntMilliAmps0
      = (max inReading.supply0.shunt 0 * 100 + 165) / 330 := by
  exact ⟨by decide,
    (shuntMilliAmpsFormula baseState inReading (by decide) (by decide)
      (by decide) (by decide)).1⟩

/-- C7: `updateDisplay` writes to the LCD only when the dirty flag is set
and the display is enabled, clearing the dirty flag when it redraws; a poll
whose readings reproduce every stored bus-millivolt and shunt-milliamp
value does not set the dirty flag, so repeated polls with unchanged values
issue zero redraws. -/
theorem dirtyFlagDiscipline (s : AppState) (rs : List Readings)
    (hr0 : int16Range s.shuntMilliAmps0) (hr1 : int16Range s.shuntMilliAmps1)
    (hnd : s.needsDisplay = false)
    (hmatch : ∀ r ∈ rs, r.supply0.bus = s.busMilliVolts0 ∧
      shuntToMa r.supply0.shunt = s.shuntMilliAmps0 ∧
      r.supply1.bus = s.busMilliVolts1 ∧
      shuntToMa r.supply1.shunt = s.shuntMilliAmps1) :
    (∀ t : AppState, (updateDisplay t).2 = true ↔
      (t.displayEnabled = true ∧ t.needsDisplay = true)) ∧
    (∀ t : AppState, (updateDisplay t).2 = true → (updateDisplay t).1.needsDisplay = false) ∧
    (∀ r ∈ rs, (updateCurrentSensor s r).needsDisplay = false) ∧
    (runPollsDisplay s rs).2 = 0 := by
  refine ⟨fun t => ?_, fun t => ?_, fun r hr => ?_, ?_⟩
  · unfold updateDisplay
    cases hd : t.displayEnabled <;> cases hn : t.needsDisplay <;> simp [hd, hn]
  · unfold updateDisplay
    cases hd : t.displayEnabled <;> cases hn : t.needsDisplay <;> simp [hd, hn]
  · obtain ⟨e1, e2, e3, e4⟩ := hmatch r hr
    rw [(poll_unchanged s r hr0 hr1 e1 e2 e3 e4).1, hnd]
  · exact pollsDisplay_aux rs s 0 hr0 hr1 hnd hmatch

/-- Witness for C7: three polls repeating the stored values of `baseState`
issue zero redraws. -/
theorem dirtyFlagDiscipline_witness :
    (List.replicate 3 inReading).length = 3 ∧
    (runPollsDisplay { baseState with needsDisplay := false }
      (List.replicate 3 inReading)).2 = 0 := by
  have hmatch : ∀ r ∈ List.replicate 3 inReading,
      r.supply0.bus = ({ baseState with needsDisplay := false } : AppState).busMilliVolts0 ∧
      shuntToMa r.supply0.shunt = ({ baseState with needsDisplay := false } : AppState).shuntMilliAmps0 ∧
      r.supply1.bus = ({ baseState with needsDisplay := false } : AppState).busMilliVolts1 ∧
      shuntToMa r.supply1.shunt = ({ baseState with needsDisplay := false } : AppState).shuntMilliAmps1 := by
    intro r hr
    rw [List.eq_of_mem_replicate hr]
    refine ⟨by decide, by decide, by decide, by decide⟩
  exact ⟨by decide,
    (dirtyFlagDiscipline { baseState with needsDisplay := false } (List.replicate 3 inReading)
      (by decide) (by decide) (by decide) hmatch).2.2.2⟩

lemma one_flags (s : AppState) (i : Nat) (r : SensorReading) :
    (updateCurrentSensorOne s i r).captureSensorValues = s.captureSensorValues ∧
    (updateCurrentSensorOne s i r).captureADCValue = s.captureADCValue := by
  obtain ⟨b0, b1, m0, m1, c0, c1, sa, sb, led, nd, de, csv, cav, adc, li0, li1, ai0, ai1, js⟩ := s
  unfold updateCurrentSensorOne setCurrentLimit curLimitMa
  simp only [AppState.shuntMilliAmps, AppState.busMilliVolts, AppState.overCurrentCount,
    AppState.currentLimitIndex, ne_eq, gt_iff_lt]
  split_ifs <;> simp_all

lemma poll_flags (s : AppState) (r : Readings) :
    (updateCurrentSensor s r).captureSensorValues = s.captureSensorValues ∧
    (updateCurrentSensor s r).captureADCValue = s.captureADCValue := by
  unfold updateCurrentSensor
  constructor
  · rw [(one_flags _ 1 _).1, (one_flags s 0 r.supply0).1]
  · rw [(one_flags _ 1 _).2, (one_flags s 0 r.supply0).2]

lemma updateDisplay_snd (t : AppState) :
    (updateDisplay t).2 = (t.displayEnabled && t.needsDisplay) := by
  unfold updateDisplay
  cases hd : t.displayEnabled <;> cases hn : t.needsDisplay <;> simp [hd, hn]

lemma updateDisplay_fst_flags (t : AppState) :
    (updateDisplay t).1.captureSensorValues = t.captureSensorValues ∧
    (updateDisplay t).1.captureADCValue = t.captureADCValue := by
  unfold updateDisplay
  split_ifs <;> simp

/-- C6 (amended): an idle pass forwards the event to the menu engine
first, then performs at most one sensor poll (only when the
sensor-capture flag was set, clearing it before polling), then at most one
ADC fold followed by starting the next conversion (only when the
ADC-sample flag was set, clearing it first), and requests a display redraw
last, only when the display is dirty and not overridden by the menu; both
flags are clear when the pass ends. -/
theorem idlePassOrder (s : AppState) (r : Readings) (sample : Nat) :
    idleTrace s r sample =
      [IdleAction.menuForward]
      ++ (if s.captureSensorValues then [IdleAction.sensorPoll] else [])
      ++ (if s.captureADCValue then [IdleAction.adcFold, IdleAction.startConversion] else [])
      ++ (if (preDisplay s r sample).displayEnabled && (preDisplay s r sample).needsDisplay
          then [IdleAction.redraw] else [])
    ∧ (handleIdle s r sample).1.captureSensorValues = false
    ∧ (handleIdle s r sample).1.captureADCValue = false
    ∧ (idleTrace s r sample).count IdleAction.sensorPoll ≤ 1
    ∧ (idleTrace s r sample).count IdleAction.adcFold ≤ 1 := by
  have pfa : ∀ (t : AppState) (rr : Readings),
      (updateCurrentSensor t rr).captureADCValue = t.captureADCValue :=
    fun t rr => (poll_flags t rr).2
  have pfs : ∀ (t : AppState) (rr : Readings),
      (updateCurrentSensor t rr).captureSensorValues = t.captureSensorValues :=
    fun t rr => (poll_flags t rr).1
  have hs1 : (pollPhase s r).1.captureSensorValues = false := by
    unfold pollPhase
    split_ifs with h
    · rw [pfs]
    · simpa using h
  have hs1adc : (pollPhase s r).1.captureADCValue = s.captureADCValue := by
    unfold pollPhase
    split_ifs with h
    · rw [pfa]
    · rfl
  have hs2 : (adcPhase (pollPhase s r).1 sample).1.captureSensorValues = false := by
    unfold adcPhase
    split_ifs <;> simpa using hs1
  have hs2adc : (adcPhase (pollPhase s r).1 sample).1.captureADCValue = false := by
    unfold adcPhase
    split_ifs with h
    · rfl
    · simpa using h
  have htr : idleTrace s r sample =
      [IdleAction.menuForward]
      ++ (if s.captureSensorValues then [IdleAction.sensorPoll] else [])
      ++ (if s.captureADCValue then [IdleAction.adcFold, IdleAction.startConversion] else [])
      ++ (if (preDisplay s r sample).displayEnabled && (preDisplay s r sample).needsDisplay
          then [IdleAction.redraw] else []) := by
    by_cases h1 : s.captureSensorValues <;> by_cases h2 : s.captureADCValue <;>
      simp [idleTrace, handleIdle, menuHandleEvent, pollPhase, adcPhase, preDisplay,
        updateDisplay_snd, h1, h2, pfa]
  refine ⟨htr, ?_, ?_, ?_, ?_⟩
  · show (updateDisplay (adcPhase (pollPhase (menuHandleEvent s).1 r).1 sample).1).1.captureSensorValues = false
    rw [(updateDisplay_fst_flags _).1]
    exact hs2
  · show (updateDisplay (adcPhase (pollPhase (menuHandleEvent s).1 r).1 sample).1).1.captureADCValue = false
    rw [(updateDisplay_fst_flags _).2]
    exact hs2adc
  · rw [htr]
    split_ifs <;> decide
  · rw [htr]
    split_ifs <;> decide

/-- C6 counterexample: the claim places the menu-engine forwarding after
the ADC fold, but on an idle pass with both capture flags set the
dispatcher's trace begins with the forwarding and the ADC fold comes
later. -/
theorem idleOrderClaim_counterexample :
    baseState.captureSensorValues = true ∧
    baseState.captureADCValue = true ∧
    idleTrace baseState overReading 512 =
      [IdleAction.menuForward, IdleAction.sensorPoll, IdleAction.adcFold,
        IdleAction.startConversion, IdleAction.redraw] ∧
    ¬ claimedIdleOrder (idleTrace baseState overReading 512) := by
  refine ⟨by decide, by decide, by decide, ?_⟩
  intro h
  have := h 2 (by decide) 0 (by decide) (by decide) (by decide)
  omega

lemma runADC_append (s : ADCState) (xs ys : List Nat) :
    runADC s (xs ++ ys) = runADC (runADC s xs) ys :=
  List.foldl_append _ _ _ _

lemma runADC_round (a0 a1 a2 a3 k : Nat) (volts : List Nat) (x0 x1 x2 x3 : Nat)
    (hk : k + 1 < 16) :
    runADC ⟨[a0, a1, a2, a3], volts, 0, k⟩ [x0, x1, x2, x3] =
      ⟨[(a0 + x0) % 65536, (a1 + x1) % 65536, (a2 + x2) % 65536, (a3 + x3) % 65536],
        volts, 0, k + 1⟩ := by
  have h1 : (k + 1) % 256 = k + 1 := Nat.mod_eq_of_lt (by omega)
  have h2 : ¬ ADCAverageCount ≤ k + 1 := by unfold ADCAverageCount; omega
  simp [runADC, updateADC, ADCAverageCount, h1]
  omega

lemma runADC_round_flush (a0 a1 a2 a3 : Nat) (volts : List Nat) (x0 x1 x2 x3 : Nat) :
    runADC ⟨[a0, a1, a2, a3], volts, 0, 15⟩ [x0, x1, x2, x3] =
      ⟨[0, 0, 0, 0],
        [avgFormula ((a0 + x0) % 65536) % 65536, avgFormula ((a1 + x1) % 65536) % 65536,
          avgFormula ((a2 + x2) % 65536) % 65536, avgFormula ((a3 + x3) % 65536) % 65536],
        0, 0⟩ := by
  simp [runADC, updateADC, ADCAverageCount, avgFormula, List.replicate]

lemma interleave_cons (q : ADCRound) (rest : List ADCRound) :
    interleave (q :: rest) = [q.x0, q.x1, q.x2, q.x3] ++ interleave rest := rfl

lemma sumChan_cons (q : ADCRound) (rest : List ADCRound) :
    sumChan0 (q :: rest) = q.x0 + sumChan0 rest ∧
    sumChan1 (q :: rest) = q.x1 + sumChan1 rest ∧
    sumChan2 (q :: rest) = q.x2 + sumChan2 rest ∧
    sumChan3 (q :: rest) = q.x3 + sumChan3 rest := by
  simp [sumChan0, sumChan1, sumChan2, sumChan3]

lemma runADC_rounds (rs : List ADCRound) : ∀ (k a0 a1 a2 a3 : Nat) (volts : List Nat),
    k + rs.length ≤ 15 →
    a0 < 65536 → a1 < 65536 → a2 < 65536 → a3 < 65536 →
    runADC ⟨[a0, a1, a2, a3], volts, 0, k⟩ (interleave rs) =
      ⟨[(a0 + sumChan0 rs) % 65536, (a1 + sumChan1 rs) % 65536,
        (a2 + sumChan2 rs) % 65536, (a3 + sumChan3 rs) % 65536],
        volts, 0, k + rs.length⟩ := by
  induction rs with
  | nil =>
    intro k a0 a1 a2 a3 volts hk h0 h1 h2 h3
    simp [interleave, runADC, sumChan0, sumChan1, sumChan2, sumChan3,
      Nat.mod_eq_of_lt, h0, h1, h2, h3]
  | cons q rest ih =>
    intro k a0 a1 a2 a3 volts hk h0 h1 h2 h3
    simp only [List.length_cons] at hk
    rw [interleave_cons, runADC_append,
      runADC_round a0 a1 a2 a3 k volts q.x0 q.x1 q.x2 q.x3 (by omega)]
    rw [ih (k + 1) _ _ _ _ volts (by omega)
      (Nat.mod_lt _ (by omega)) (Nat.mod_lt _ (by omega))
      (Nat.mod_lt _ (by omega)) (Nat.mod_lt _ (by omega))]
    obtain ⟨e0, e1, e2, e3⟩ := sumChan_cons q rest
    rw [e0, e1, e2, e3]
    simp only [List.length_cons, Nat.mod_add_mod]
    simp [Nat.add_assoc, Nat.add_comm, Nat.add_left_comm]

lemma sum_le_mul (l : List Nat) (b : Nat) (hb : ∀ x ∈ l, x ≤ b) :
    l.sum ≤ l.length * b := by
  induction l with
  | nil => simp
  | cons x t ih =>
    rw [List.sum_cons, List.length_cons, Nat.succ_mul]
    have hx := hb x (List.mem_cons_self x t)
    have ht := ih fun y hy => hb y (List.mem_cons_of_mem x hy)
    omega

lemma interleave_append (a b : List ADCRound) :
    interleave (a ++ b) = interleave a ++ interleave b := by
  induction a with
  | nil => rfl
  | cons q t ih => simp [interleave_cons, ih]

lemma sumChan_append_singleton (l : List ADCRound) (q : ADCRound) :
    sumChan0 (l ++ [q]) = sumChan0 l + q.x0 ∧
    sumChan1 (l ++ [q]) = sumChan1 l + q.x1 ∧
    sumChan2 (l ++ [q]) = sumChan2 l + q.x2 ∧
    sumChan3 (l ++ [q]) = sumChan3 l + q.x3 := by
  simp [sumChan0, sumChan1, sumChan2, sumChan3]

/-- C3: for every window of 16 round-robin rounds of raw 10-bit samples
folded from a fresh accumulator state, the stored averaged value of each
channel equals `((S + 8) / 16) * 5000 / 1024` with truncating division,
where `S` is the sum of that channel's 16 samples, and immediately after
the flush every accumulator is zero and the sample counter restarts. -/
theorem adcAveragingCorrect (rs : List ADCRound) (volts : List Nat)
    (hlen : rs.length = 16)
    (hbound : ∀ q ∈ rs, q.x0 < 1024 ∧ q.x1 < 1024 ∧ q.x2 < 1024 ∧ q.x3 < 1024) :
    (runADC ⟨[0, 0, 0, 0], volts, 0, 0⟩ (interleave rs)).adcVoltage =
      [avgFormula (sumChan0 rs), avgFormula (sumChan1 rs),
        avgFormula (sumChan2 rs), avgFormula (sumChan3 rs)] ∧
    (runADC ⟨[0, 0, 0, 0], volts, 0, 0⟩ (interleave rs)).adcAccumulator = [0, 0, 0, 0] ∧
    (runADC ⟨[0, 0, 0, 0], volts, 0, 0⟩ (interleave rs)).adcCurrentSamples = 0 ∧
    (runADC ⟨[0, 0, 0, 0], volts, 0, 0⟩ (interleave rs)).adcCurrentChannel = 0 := by
  have hne : rs ≠ [] := by
    intro h
    rw [h] at hlen
    simp at hlen
  obtain ⟨init, q, hq⟩ : ∃ init q, rs = init ++ [q] :=
    ⟨rs.dropLast, rs.getLast hne, (rs.dropLast_append_getLast hne).symm⟩
  subst hq
  have hinit : init.length = 15 := by
    rw [List.length_append, List.length_singleton] at hlen
    omega
  have hT0 : sumChan0 (init ++ [q]) < 65536 := by
    have := sum_le_mul ((init ++ [q]).map ADCRound.x0) 1023
      (fun x hx => by
        obtain ⟨w, hw, he⟩ := List.mem_map.mp hx
        have := (hbound w hw).1
        omega)
    rw [List.length_map, hlen] at this
    unfold sumChan0
    omega
  have hT1 : sumChan1 (init ++ [q]) < 65536 := by
    have := sum_le_mul ((init ++ [q]).map ADCRound.x1) 1023
      (fun x hx => by
        obtain ⟨w, hw, he⟩ := List.mem_map.mp hx
        have := (hbound w hw).2.1
        omega)
    rw [List.length_map, hlen] at this
    unfold sumChan1
    omega
  have hT2 : sumChan2 (init ++ [q]) < 65536 := by
    have := sum_le_mul ((init ++ [q]).map ADCRound.x2) 1023
      (fun x hx => by
        obtain ⟨w, hw, he⟩ := List.mem_map.mp hx
        have := (hbound w hw).2.2.1
        omega)
    rw [List.length_map, hlen] at this
    unfold sumChan2
    omega
  have hT3 : sumChan3 (init ++ [q]) < 65536 := by
    have := sum_le_mul ((init ++ [q]).map ADCRound.x3) 1023
      (fun x hx => by
        obtain ⟨w, hw, he⟩ := List.mem_map.mp hx
        have := (hbound w hw).2.2.2
        omega)
    rw [List.length_map, hlen] at this
    unfold sumChan3
    omega
  obtain ⟨a0, a1, a2, a3⟩ := sumChan_append_singleton init q
  have hql : interleave [q] = [q.x0, q.x1, q.x2, q.x3] := rfl
  rw [interleave_append, runADC_append, hql,
    runADC_rounds init 0 0 0 0 0 volts (by omega) (by omega) (by omega) (by omega) (by omega)]
  simp only [Nat.zero_add, hinit]
  have m0 : sumChan0 init % 65536 = sumChan0 init := Nat.mod_eq_of_lt (by omega)
  have m1 : sumChan1 init % 65536 = sumChan1 init := Nat.mod_eq_of_lt (by omega)
  have m2 : sumChan2 init % 65536 = sumChan2 init := Nat.mod_eq_of_lt (by omega)
  have m3 : sumChan3 init % 65536 = sumChan3 init := Nat.mod_eq_of_lt (by omega)
  rw [m0, m1, m2, m3, runADC_round_flush]
  rw [a0] at hT0
  rw [a1] at hT1
  rw [a2] at hT2
  rw [a3] at hT3
  rw [a0, a1, a2, a3]
  have v0 : avgFormula (sumChan0 init + q.x0) < 65536 := by unfold avgFormula; omega
  have v1 : avgFormula (sumChan1 init + q.x1) < 65536 := by unfold avgFormula; omega
  have v2 : avgFormula (sumChan2 init + q.x2) < 65536 := by unfold avgFormula; omega
  have v3 : avgFormula (sumChan3 init + q.x3) < 65536 := by unfold avgFormula; omega
  rw [Nat.mod_eq_of_lt hT0, Nat.mod_eq_of_lt hT1, Nat.mod_eq_of_lt hT2, Nat.mod_eq_of_lt hT3,
    Nat.mod_eq_of_lt v0, Nat.mod_eq_of_lt v1, Nat.mod_eq_of_lt v2, Nat.mod_eq_of_lt v3]
  exact ⟨rfl, rfl, rfl, rfl⟩

/-- Witness for C3: sixteen full-scale rounds average to 4995 mV. -/
theorem adcAveragingCorrect_witness :
    (List.replicate 16 (ADCRound.mk 1023 1023 1023 1023)).length = 16 ∧
    (runADC ⟨[0, 0, 0, 0], [0, 0, 0, 0], 0, 0⟩
        (interleave (List.replicate 16 (ADCRound.mk 1023 1023 1023 1023)))).adcVoltage =
      [avgFormula (sumChan0 (List.replicate 16 (ADCRound.mk 1023 1023 1023 1023))),
        avgFormula (sumChan1 (List.replicate 16 (ADCRound.mk 1023 1023 1023 1023))),
        avgFormula (sumChan2 (List.replicate 16 (ADCRound.mk 1023 1023 1023 1023))),
        avgFormula (sumChan3 (List.replicate 16 (ADCRound.mk 1023 1023 1023 1023)))] := by
  refine ⟨by decide, ?_⟩
  exact (adcAveragingCorrect (List.replicate 16 (ADCRound.mk 1023 1023 1023 1023)) [0, 0, 0, 0]
    (by decide)
    (fun q hq => by rw [List.eq_of_mem_replicate hq]; exact ⟨by decide, by decide, by decide, by decide⟩)).1
